import Mathlib

/-
Verification of the startup configuration resolver of a blockchain node
(cmd/utils/flags.go): mutual-exclusion checking of command-line flags,
peer-slot partitioning in SetP2PConfig, cache-budget partitioning and
gc-mode validation in SetEthConfig, service selection in RegisterEthService,
and password-file parsing in MakePasswordList.

The command-line front end (urfave/cli) is modelled by contexts recording,
for each flag the resolver reads, whether the flag was explicitly set and
its current value; GlobalInt / GlobalString return the explicit value when
the flag is set and the flag's declared default otherwise.  Fatalf and
panic terminate the process; functions that can terminate are modelled as
returning Option, with none for the fatal exit.
-/

namespace GoVnt

/-- Modelled from the spec: the default value of the light-peer-count flag
(LightPeersFlag.Value = vnt.DefaultConfig.LightPeers, declared outside the
given file); the spec states this default is 25. -/
def defaultLightPeers : Int := 25

/-! ## Peer topology resolution: SetP2PConfig (flags.go lines 747-778) -/

/-- Flags read by the peer-topology part of SetP2PConfig.  The value fields
named Explicit hold the user-supplied value, consulted only when the
corresponding Set field is true; syncMode is the current textual value of
the syncmode flag (explicit or default), as returned by GlobalString. -/
structure P2PCtx where
  syncMode : String
  lightServ : Int
  lightPeersSet : Bool
  lightPeersExplicit : Int
  maxPeersSet : Bool
  maxPeersExplicit : Int
  maxPendingSet : Bool
  maxPendingExplicit : Int
  noDiscoverSet : Bool

/-- Line 747: lightClient := ctx.GlobalString(SyncModeFlag.Name) == "light". -/
def P2PCtx.lightClient (c : P2PCtx) : Bool := c.syncMode == "light"

/-- Line 748: lightServer := ctx.GlobalInt(LightServFlag.Name) != 0. -/
def P2PCtx.lightServer (c : P2PCtx) : Bool := c.lightServ != 0

/-- Line 749: lightPeers := ctx.GlobalInt(LightPeersFlag.Name); the explicit
value when set, the flag default otherwise. -/
def P2PCtx.lightPeers (c : P2PCtx) : Int :=
  if c.lightPeersSet then c.lightPeersExplicit else defaultLightPeers

/-- The fields of vntp2p.Config written by the modelled part of SetP2PConfig. -/
structure VntP2PConfig where
  MaxPeers : Int
  MaxPendingPeers : Int
  NoDiscovery : Bool
deriving DecidableEq

/-- Lines 751-763: resolution of cfg.MaxPeers.  cfgMaxPeers is the value of
cfg.MaxPeers on entry (the caller's built-in default). -/
def resolvedMaxPeers (c : P2PCtx) (cfgMaxPeers : Int) : Int :=
  if c.maxPeersSet then
    if c.lightServer && !c.lightPeersSet then c.maxPeersExplicit + c.lightPeers
    else c.maxPeersExplicit
  else
    let m := if c.lightServer then cfgMaxPeers + c.lightPeers else cfgMaxPeers
    if c.lightClient && c.lightPeersSet && decide (m < c.lightPeers) then c.lightPeers else m

/-- Lines 764-766: lightPeers is zeroed unless the node is light client or
light server; this is the LES slot count reported on line 771. -/
def resolvedLightSlots (c : P2PCtx) : Int :=
  if c.lightClient || c.lightServer then c.lightPeers else 0

/-- Lines 767-770: ethPeers := cfg.MaxPeers - lightPeers, forced to 0 for a
light client; this is the VNT slot count reported on line 771. -/
def resolvedFullSlots (c : P2PCtx) (cfgMaxPeers : Int) : Int :=
  if c.lightClient then 0 else resolvedMaxPeers c cfgMaxPeers - resolvedLightSlots c

/-- Lines 747-778 of SetP2PConfig: returns the updated config together with
the resolved full-protocol and light-protocol slot counts. -/
def SetP2PConfig (c : P2PCtx) (cfg : VntP2PConfig) : VntP2PConfig × Int × Int :=
  ({ MaxPeers := resolvedMaxPeers c cfg.MaxPeers,
     MaxPendingPeers := if c.maxPendingSet then c.maxPendingExplicit else cfg.MaxPendingPeers,
     NoDiscovery := if c.noDiscoverSet || c.lightClient then true else cfg.NoDiscovery },
   resolvedFullSlots c cfg.MaxPeers,
   resolvedLightSlots c)

/-! ## Mutual exclusion: checkExclusive (flags.go lines 866-899) -/

/-- An argument of checkExclusive: either a flag (identified by name) or a
string qualifier extending the preceding flag. -/
inductive CheckArg
  | flag (name : String)
  | qual (s : String)
deriving DecidableEq

/-- Lines 867-895: the list of names collected in the set variable, or none
when the argument list is malformed (the code panics).  A flag followed by a
string qualifier is renamed to name=qualifier when its current value equals
the qualifier, and is appended to the set whenever it is explicitly set. -/
def checkExclusiveSet (isSet : String → Bool) (strVal : String → String) :
    List CheckArg → Option (List String)
  | [] => some []
  | CheckArg.qual _ :: _ => none
  | CheckArg.flag n :: CheckArg.qual s :: rest =>
      Option.map
        (fun set =>
          if isSet n then ("--" ++ (if strVal n == s then n ++ "=" ++ s else n)) :: set else set)
        (checkExclusiveSet isSet strVal rest)
  | CheckArg.flag n :: rest =>
      Option.map (fun set => if isSet n then ("--" ++ n) :: set else set)
        (checkExclusiveSet isSet strVal rest)

/-- Lines 866-899: checkExclusive terminates the process (panic on malformed
arguments, Fatalf when more than one collected flag) exactly when this
returns true. -/
def checkExclusiveFatal (isSet : String → Bool) (strVal : String → String)
    (args : List CheckArg) : Bool :=
  match checkExclusiveSet isSet strVal args with
  | none => true
  | some set => decide (1 < set.length)

/-- Stated from the claim's words, not from the code: the number of group
members that are explicitly set and, when qualified, whose current value
equals the qualifier. -/
def qualifyingCount (isSet : String → Bool) (strVal : String → String) :
    List CheckArg → Nat
  | [] => 0
  | CheckArg.qual _ :: rest => qualifyingCount isSet strVal rest
  | CheckArg.flag n :: CheckArg.qual s :: rest =>
      (if isSet n && (strVal n == s) then 1 else 0) + qualifyingCount isSet strVal rest
  | CheckArg.flag n :: rest =>
      (if isSet n then 1 else 0) + qualifyingCount isSet strVal rest

/-! ## SetEthConfig (flags.go lines 912-966) and RegisterEthService (969-988) -/

/-- The downloader.SyncMode enumeration. -/
inductive Downloader_SyncMode
  | fullSync
  | fastSync
  | lightSync
deriving DecidableEq

/-- Flags read by the modelled part of SetEthConfig.  syncModeStr is the
textual form of the syncmode flag's current value (used by checkExclusive);
syncModeVal is the unmarshaled value written to the config when set. -/
structure EthCtx where
  syncModeSet : Bool
  syncModeVal : Downloader_SyncMode
  syncModeStr : String
  lightServSet : Bool
  lightServVal : Int
  lightPeersSet : Bool
  lightPeersVal : Int
  cacheSet : Bool
  cacheVal : Int
  cacheDatabaseSet : Bool
  cacheDatabaseVal : Int
  cacheGCSet : Bool
  cacheGCVal : Int
  gcModeSet : Bool
  gcModeVal : String

/-- GlobalIsSet restricted to the two flags checkExclusive is called with. -/
def EthCtx.isSet (c : EthCtx) : String → Bool := fun n =>
  if n == "lightserv" then c.lightServSet
  else if n == "syncmode" then c.syncModeSet
  else false

/-- GlobalString restricted to the flags checkExclusive may query here. -/
def EthCtx.strVal (c : EthCtx) : String → String := fun n =>
  if n == "syncmode" then c.syncModeStr else ""

/-- Line 219-222: GlobalInt(CacheFlag.Name), default 1024. -/
def globalCache (c : EthCtx) : Int := if c.cacheSet then c.cacheVal else 1024

/-- Line 224-228: GlobalInt(CacheDatabaseFlag.Name), default 75. -/
def globalCacheDatabase (c : EthCtx) : Int :=
  if c.cacheDatabaseSet then c.cacheDatabaseVal else 75

/-- Line 229-233: GlobalInt(CacheGCFlag.Name), default 25. -/
def globalCacheGC (c : EthCtx) : Int := if c.cacheGCSet then c.cacheGCVal else 25

/-- Line 149-153: GlobalString(GCModeFlag.Name), default "full". -/
def globalGCMode (c : EthCtx) : String := if c.gcModeSet then c.gcModeVal else "full"

/-- The fields of vnt.Config written by the modelled part of SetEthConfig. -/
structure VntConfig where
  SyncMode : Downloader_SyncMode
  LightServ : Int
  LightPeers : Int
  DatabaseCache : Int
  NoPruning : Bool
  TrieCache : Int
deriving DecidableEq

/-- Lines 936 and 946: the cache expression total * percent / 100, with Go's
truncating integer division. -/
def cachePortion (total percent : Int) : Int := Int.tdiv (total * percent) 100

/-- Line 914: the argument list of the checkExclusive call in SetEthConfig. -/
def exclusiveArgsLightServSync : List CheckArg :=
  [CheckArg.flag "lightserv", CheckArg.flag "syncmode", CheckArg.qual "light"]

/-- Lines 912-947 of SetEthConfig (the syncmode, lightserv, lightpeers, cache
and gcmode resolution; the remaining lines copy flags this model does not
track).  The source assigns the fields one after the other, each guarded by
its own GlobalIsSet test, and each assignment touches a distinct field; the
net result is the single record below.  The range check on gcmode (lines
940-942) and the checkExclusive call (line 914) call Fatalf, so no resolved
config is produced when either fires: those runs return none. -/
def SetEthConfig (c : EthCtx) (cfg : VntConfig) : Option VntConfig :=
  if checkExclusiveFatal c.isSet c.strVal exclusiveArgsLightServSync then none
  else if ¬(globalGCMode c = "full" ∨ globalGCMode c = "archive") then none
  else some
    { SyncMode := if c.syncModeSet then c.syncModeVal else cfg.SyncMode,
      LightServ := if c.lightServSet then c.lightServVal else cfg.LightServ,
      LightPeers := if c.lightPeersSet then c.lightPeersVal else cfg.LightPeers,
      DatabaseCache :=
        if c.cacheSet || c.cacheDatabaseSet then
          cachePortion (globalCache c) (globalCacheDatabase c)
        else cfg.DatabaseCache,
      NoPruning := globalGCMode c == "archive",
      TrieCache :=
        if c.cacheSet || c.cacheGCSet then
          cachePortion (globalCache c) (globalCacheGC c)
        else cfg.TrieCache }

/-- A service registered by RegisterEthService: a light client (les.New), or
a full node (vnt.New) carrying a flag recording whether a light-serving
sidecar (les.NewLesServer) was constructed and attached to it. -/
inductive EthService
  | lightVnt
  | fullVnt (lesServerAttached : Bool)
deriving DecidableEq

/-- Lines 969-988: RegisterEthService registers one service factory; on the
success path of that factory the constructed services are as returned here.
A sidecar is built and attached exactly when the full node was constructed
and cfg.LightServ > 0 (line 978). -/
def RegisterEthService (cfg : VntConfig) : List EthService :=
  if cfg.SyncMode = Downloader_SyncMode.lightSync then [EthService.lightVnt]
  else [EthService.fullVnt (decide (0 < cfg.LightServ))]

/-- Number of light-client services in a service list. -/
def lightClientCount : List EthService → Nat
  | [] => 0
  | EthService.lightVnt :: rest => 1 + lightClientCount rest
  | EthService.fullVnt _ :: rest => lightClientCount rest

/-- Number of full-node services in a service list. -/
def fullNodeCount : List EthService → Nat
  | [] => 0
  | EthService.fullVnt _ :: rest => 1 + fullNodeCount rest
  | EthService.lightVnt :: rest => fullNodeCount rest

/-- Number of light-serving sidecars attached to full nodes in a service list. -/
def sidecarCount : List EthService → Nat
  | [] => 0
  | EthService.fullVnt b :: rest => (if b then 1 else 0) + sidecarCount rest
  | EthService.lightVnt :: rest => sidecarCount rest

/-! ## MakePasswordList (flags.go lines 721-736) -/

/-- Go's strings.TrimRight: remove the trailing characters of s that belong
to cutset. -/
def strings_TrimRight (s : String) (cutset : String) : String :=
  String.mk ((s.data.reverse.dropWhile (fun ch => cutset.data.contains ch)).reverse)

/-- Lines 721-736: an empty path yields no passwords; otherwise the file
content (reading the file is external I/O, modelled by the text argument;
a read failure is fatal and out of scope) is split on newline characters and
each line has its trailing carriage returns stripped. -/
def MakePasswordList (path : String) (text : String) : List String :=
  if path = "" then []
  else (text.splitOn "\n").map (fun l => strings_TrimRight l "\r")

/-! ## Concrete inputs used by counterexamples and witnesses -/

/-- A default-valued p2p config on entry (node.DefaultConfig has MaxPeers 25). -/
def p2pCfg0 : VntP2PConfig := { MaxPeers := 25, MaxPendingPeers := 0, NoDiscovery := false }

/-- Explicit maxpeers 0, light server, explicit lightpeers 10: the input on
which the peer-slot non-negativity claim fails. -/
def c2Ctx : P2PCtx :=
  { syncMode := "fast", lightServ := 50, lightPeersSet := true, lightPeersExplicit := 10,
    maxPeersSet := true, maxPeersExplicit := 0, maxPendingSet := false,
    maxPendingExplicit := 0, noDiscoverSet := false }

/-- Explicit maxpeers 100, light server, lightpeers left at its default. -/
def c4CtxA : P2PCtx :=
  { syncMode := "fast", lightServ := 50, lightPeersSet := false, lightPeersExplicit := 0,
    maxPeersSet := true, maxPeersExplicit := 100, maxPendingSet := false,
    maxPendingExplicit := 0, noDiscoverSet := false }

/-- Explicit maxpeers 100, light server, explicit lightpeers 10. -/
def c4CtxB : P2PCtx :=
  { syncMode := "fast", lightServ := 50, lightPeersSet := true, lightPeersExplicit := 10,
    maxPeersSet := true, maxPeersExplicit := 100, maxPendingSet := false,
    maxPendingExplicit := 0, noDiscoverSet := false }

/-- Light sync mode with the nodiscover flag not set. -/
def c10Ctx : P2PCtx :=
  { syncMode := "light", lightServ := 0, lightPeersSet := false, lightPeersExplicit := 0,
    maxPeersSet := false, maxPeersExplicit := 0, maxPendingSet := false,
    maxPendingExplicit := 0, noDiscoverSet := false }

/-- A light-server p2p context satisfying the amended non-negativity bounds. -/
def c2GoodCtx : P2PCtx :=
  { syncMode := "fast", lightServ := 50, lightPeersSet := true, lightPeersExplicit := 10,
    maxPeersSet := true, maxPeersExplicit := 40, maxPendingSet := false,
    maxPendingExplicit := 0, noDiscoverSet := false }

/-- GlobalIsSet for the failing checkExclusive input: both lightserv and
syncmode explicitly set. -/
def c1IsSet : String → Bool := fun n => n == "lightserv" || n == "syncmode"

/-- GlobalString for the failing checkExclusive input: syncmode currently
"fast", which differs from the qualifier "light". -/
def c1StrVal : String → String := fun n => if n == "syncmode" then "fast" else "50"

/-- A default-valued vnt.Config on entry. -/
def vntCfg0 : VntConfig :=
  { SyncMode := Downloader_SyncMode.fastSync, LightServ := 0, LightPeers := 25,
    DatabaseCache := 768, NoPruning := false, TrieCache := 256 }

/-- The SetEthConfig flag context corresponding to the failing checkExclusive
input: lightserv 50 and syncmode fast both explicitly set. -/
def c1EthCtx : EthCtx :=
  { syncModeSet := true, syncModeVal := Downloader_SyncMode.fastSync, syncModeStr := "fast",
    lightServSet := true, lightServVal := 50, lightPeersSet := false, lightPeersVal := 0,
    cacheSet := false, cacheVal := 0, cacheDatabaseSet := false, cacheDatabaseVal := 0,
    cacheGCSet := false, cacheGCVal := 0, gcModeSet := false, gcModeVal := "" }

/-- An EthCtx with no flag explicitly set. -/
def ethCtx0 : EthCtx :=
  { syncModeSet := false, syncModeVal := Downloader_SyncMode.fastSync, syncModeStr := "fast",
    lightServSet := false, lightServVal := 0, lightPeersSet := false, lightPeersVal := 0,
    cacheSet := false, cacheVal := 0, cacheDatabaseSet := false, cacheDatabaseVal := 0,
    cacheGCSet := false, cacheGCVal := 0, gcModeSet := false, gcModeVal := "" }

/-- An EthCtx whose only explicitly set flag is gcmode, with an illegal value. -/
def ethCtxBadGC : EthCtx :=
  { ethCtx0 with gcModeSet := true, gcModeVal := "banana" }

/-- An EthCtx whose only explicitly set flag is gcmode, set to archive. -/
def ethCtxArchive : EthCtx :=
  { ethCtx0 with gcModeSet := true, gcModeVal := "archive" }

/-- The config produced by SetEthConfig on ethCtxArchive and vntCfg0. -/
def vntCfgArchiveRes : VntConfig := { vntCfg0 with NoPruning := true }

/-- A light-sync config with a positive light-serve percentage. -/
def vntCfgLight : VntConfig := { vntCfg0 with SyncMode := Downloader_SyncMode.lightSync, LightServ := 30 }

/-- A full-sync config with light-serve percentage 10. -/
def vntCfgFullServ : VntConfig := { vntCfg0 with SyncMode := Downloader_SyncMode.fullSync, LightServ := 10 }

end GoVnt

namespace GoVnt

/-! ## Claims about SetP2PConfig -/

/-- C2 counterexample: with explicit maxpeers 0 (non-negative), the light
server active and explicit lightpeers 10 (non-negative), SetP2PConfig
resolves the full-protocol slot count to -10 and a total of 0, below the
light-peer-count; both parts of the claimed invariant fail. -/
theorem C2_counterexample :
    c2Ctx.lightServer = true ∧ 0 ≤ c2Ctx.lightPeers ∧ 0 ≤ c2Ctx.maxPeersExplicit ∧
    0 ≤ p2pCfg0.MaxPeers ∧
    (SetP2PConfig c2Ctx p2pCfg0).2.1 = -10 ∧
    (SetP2PConfig c2Ctx p2pCfg0).1.MaxPeers < c2Ctx.lightPeers := by decide

/-- C2 (amended): provided the effective light-peer-count is non-negative and
does not exceed the base peer budget (the explicit maxpeers value when that
flag is set, the incoming config value otherwise), the resolved total,
full-protocol slots and light-protocol slots are all non-negative, and the
total is at least the light-peer-count whenever the node is a light client
or a light server. -/
theorem C2_peer_slots_nonneg (c : P2PCtx) (cfg : VntP2PConfig)
    (hlp : 0 ≤ c.lightPeers)
    (hmp : 0 ≤ c.maxPeersExplicit) (hcfg : 0 ≤ cfg.MaxPeers)
    (hbase : c.lightPeers ≤ (if c.maxPeersSet then c.maxPeersExplicit else cfg.MaxPeers)) :
    0 ≤ (SetP2PConfig c cfg).1.MaxPeers ∧
    0 ≤ (SetP2PConfig c cfg).2.1 ∧
    0 ≤ (SetP2PConfig c cfg).2.2 ∧
    ((c.lightClient || c.lightServer) = true →
      c.lightPeers ≤ (SetP2PConfig c cfg).1.MaxPeers) := by
  simp only [SetP2PConfig, resolvedFullSlots, resolvedLightSlots, resolvedMaxPeers]
  cases hmps : c.maxPeersSet <;> cases hlc : c.lightClient <;> cases hls : c.lightServer <;>
    cases hlpset : c.lightPeersSet <;> simp_all <;> (try split_ifs) <;> omega

/-- C2 witness: a concrete light-server input within the amended bounds. -/
theorem C2_peer_slots_nonneg_witness :
    0 ≤ (SetP2PConfig c2GoodCtx p2pCfg0).2.1 :=
  (C2_peer_slots_nonneg c2GoodCtx p2pCfg0 (by decide) (by decide) (by decide) (by decide)).2.1

/-- C4: when maxpeers is explicitly set the resolved total equals the
explicit value, plus the default light-peer-count exactly when the node is a
light server and lightpeers was not explicitly set. -/
theorem C4_explicit_maxpeers (c : P2PCtx) (cfg : VntP2PConfig) (h : c.maxPeersSet = true) :
    (SetP2PConfig c cfg).1.MaxPeers =
      c.maxPeersExplicit +
        (if c.lightServer = true ∧ c.lightPeersSet = false then defaultLightPeers else 0) := by
  simp only [SetP2PConfig, resolvedMaxPeers, P2PCtx.lightPeers, h]
  cases hls : c.lightServer <;> cases hlpset : c.lightPeersSet <;> simp_all

/-- C4 witness: explicit maxpeers 100 with a light server resolves to 125
when lightpeers is left at its default of 25, and to 100 when lightpeers is
explicitly 10. -/
theorem C4_explicit_maxpeers_witness :
    (SetP2PConfig c4CtxA p2pCfg0).1.MaxPeers = 125 ∧
    (SetP2PConfig c4CtxB p2pCfg0).1.MaxPeers = 100 := by
  constructor
  · rw [C4_explicit_maxpeers c4CtxA p2pCfg0 rfl]; decide
  · rw [C4_explicit_maxpeers c4CtxB p2pCfg0 rfl]; decide

/-- C5: a light client always resolves zero full-protocol slots, and the
light-protocol slots equal the light-peer-count exactly when the node is a
light client or a light server, and zero otherwise. -/
theorem C5_slots (c : P2PCtx) (cfg : VntP2PConfig) :
    (c.lightClient = true → (SetP2PConfig c cfg).2.1 = 0) ∧
    (SetP2PConfig c cfg).2.2 =
      (if (c.lightClient || c.lightServer) = true then c.lightPeers else 0) := by
  constructor
  · intro h
    simp [SetP2PConfig, resolvedFullSlots, h]
  · simp [SetP2PConfig, resolvedLightSlots]

/-- C5 witness: a light-client input resolves zero full-protocol slots. -/
theorem C5_slots_witness : (SetP2PConfig c10Ctx p2pCfg0).2.1 = 0 :=
  (C5_slots c10Ctx p2pCfg0).1 (by decide)

/-- C10: when the sync mode is light, SetP2PConfig forces NoDiscovery to
true, whatever the nodiscover flag. -/
theorem C10_light_forces_nodiscover (c : P2PCtx) (cfg : VntP2PConfig)
    (h : c.syncMode = "light") :
    (SetP2PConfig c cfg).1.NoDiscovery = true := by
  simp [SetP2PConfig, P2PCtx.lightClient, h]

/-- C10 witness: a light-client input with the nodiscover flag not set still
gets NoDiscovery forced on. -/
theorem C10_light_forces_nodiscover_witness :
    c10Ctx.noDiscoverSet = false ∧ (SetP2PConfig c10Ctx p2pCfg0).1.NoDiscovery = true :=
  ⟨rfl, C10_light_forces_nodiscover c10Ctx p2pCfg0 rfl⟩

end GoVnt

namespace GoVnt

/-! ## Claims about RegisterEthService and checkExclusive -/

/-- C3: the service choice is a pure function of the sync mode: light sync
constructs exactly one light-client service and never a sidecar, whatever
the light-serve percentage; any other sync mode constructs exactly one full
node, with a light-serving sidecar attached to it exactly when the
light-serve percentage is positive. -/
theorem C3_service_selector (cfg : VntConfig) :
    (cfg.SyncMode = Downloader_SyncMode.lightSync →
      lightClientCount (RegisterEthService cfg) = 1 ∧
      fullNodeCount (RegisterEthService cfg) = 0 ∧
      sidecarCount (RegisterEthService cfg) = 0) ∧
    (cfg.SyncMode ≠ Downloader_SyncMode.lightSync →
      lightClientCount (RegisterEthService cfg) = 0 ∧
      fullNodeCount (RegisterEthService cfg) = 1 ∧
      (sidecarCount (RegisterEthService cfg) = 1 ↔ 0 < cfg.LightServ)) := by
  constructor
  · intro h
    simp [RegisterEthService, h, lightClientCount, fullNodeCount, sidecarCount]
  · intro h
    by_cases hls : 0 < cfg.LightServ <;>
      simp [RegisterEthService, h, lightClientCount, fullNodeCount, sidecarCount, hls]

/-- C3 witness: a light-sync config with positive light-serve percentage
yields one light client and no sidecar; a full-sync config with light-serve
10 yields one full node with a sidecar attached. -/
theorem C3_service_selector_witness :
    lightClientCount (RegisterEthService vntCfgLight) = 1 ∧
    sidecarCount (RegisterEthService vntCfgLight) = 0 ∧
    fullNodeCount (RegisterEthService vntCfgFullServ) = 1 ∧
    sidecarCount (RegisterEthService vntCfgFullServ) = 1 := by
  refine ⟨((C3_service_selector vntCfgLight).1 (by decide)).1,
    ((C3_service_selector vntCfgLight).1 (by decide)).2.2,
    ((C3_service_selector vntCfgFullServ).2 (by decide)).2.1,
    ((C3_service_selector vntCfgFullServ).2 (by decide)).2.2.mpr (by decide)⟩

/-- C1: evaluation of checkExclusive on the group (lightserv, syncmode=light)
with both flags explicitly set and the current syncmode value "fast".  Only
one member qualifies in the claim's sense (syncmode's value differs from the
qualifier), yet the code reports a fatal conflict, because it counts a
qualified member whenever it is set and uses the qualifier only to rename
the flag in the message; the same input makes the real call site in
SetEthConfig terminate the process. -/
theorem C1_qualifier_not_respected :
    qualifyingCount c1IsSet c1StrVal exclusiveArgsLightServSync = 1 ∧
    checkExclusiveFatal c1IsSet c1StrVal exclusiveArgsLightServSync = true ∧
    checkExclusiveSet c1IsSet c1StrVal exclusiveArgsLightServSync =
      some ["--lightserv", "--syncmode"] ∧
    SetEthConfig c1EthCtx vntCfg0 = none := by decide

end GoVnt

namespace GoVnt

/-! ## Claims about SetEthConfig -/

/-- C7: when neither the cache budget flag nor the database-percentage flag
is set, a completing SetEthConfig run leaves DatabaseCache untouched, and
when neither the cache budget flag nor the gc-percentage flag is set it
leaves TrieCache untouched. -/
theorem C7_cache_frame (c : EthCtx) (cfg cfg2 : VntConfig)
    (h : SetEthConfig c cfg = some cfg2) :
    (c.cacheSet = false → c.cacheDatabaseSet = false →
      cfg2.DatabaseCache = cfg.DatabaseCache) ∧
    (c.cacheSet = false → c.cacheGCSet = false → cfg2.TrieCache = cfg.TrieCache) := by
  simp only [SetEthConfig] at h
  split at h
  · exact absurd h (by simp)
  · split at h
    · exact absurd h (by simp)
    · obtain rfl : _ = cfg2 := Option.some.inj h
      constructor
      · intro h1 h2
        simp [h1, h2]
      · intro h1 h2
        simp [h1, h2]

/-- C7 witness: a run with only the gcmode flag set completes and keeps both
caches of the incoming config. -/
theorem C7_cache_frame_witness :
    vntCfgArchiveRes.DatabaseCache = vntCfg0.DatabaseCache ∧
    vntCfgArchiveRes.TrieCache = vntCfg0.TrieCache := by
  have h := C7_cache_frame ethCtxArchive vntCfg0 vntCfgArchiveRes (by decide)
  exact ⟨h.1 rfl rfl, h.2 rfl rfl⟩

/-- C8: an effective gcmode value outside the legal set makes SetEthConfig
terminate the process before completing resolution; on every completing run
NoPruning is set exactly when the gcmode value is archive. -/
theorem C8_gcmode (c : EthCtx) (cfg : VntConfig) :
    (¬(globalGCMode c = "full" ∨ globalGCMode c = "archive") →
      SetEthConfig c cfg = none) ∧
    (∀ cfg2, SetEthConfig c cfg = some cfg2 →
      (cfg2.NoPruning = true ↔ globalGCMode c = "archive")) := by
  constructor
  · intro hbad
    simp only [SetEthConfig]
    split
    · rfl
    · simp [hbad]
  · intro cfg2 h
    simp only [SetEthConfig] at h
    split at h
    · exact absurd h (by simp)
    · split at h
      · exact absurd h (by simp)
      · obtain rfl : _ = cfg2 := Option.some.inj h
        simp [beq_iff_eq]

/-- C8 witness: gcmode "banana" is fatal, and a completing archive run sets
NoPruning. -/
theorem C8_gcmode_witness :
    SetEthConfig ethCtxBadGC vntCfg0 = none ∧ vntCfgArchiveRes.NoPruning = true := by
  refine ⟨(C8_gcmode ethCtxBadGC vntCfg0).1 (by decide), ?_⟩
  exact ((C8_gcmode ethCtxArchive vntCfg0).2 vntCfgArchiveRes (by decide)).mpr (by decide)

end GoVnt

namespace GoVnt

/-! ## Claim about the cache-budget partition -/

/-- Helper: two truncated percentage shares of a budget never exceed the
budget when the percentages sum to at most 100. -/
theorem nat_cache_le (B a b : Nat) (hab : a + b ≤ 100) :
    B * a / 100 + B * b / 100 ≤ B := by
  have d1 : B * a / 100 * 100 ≤ B * a := Nat.div_mul_le_self _ _
  have d2 : B * b / 100 * 100 ≤ B * b := Nat.div_mul_le_self _ _
  have e : B * a + B * b ≤ B * 100 := by
    calc B * a + B * b = B * (a + b) := (Nat.mul_add B a b).symm
    _ ≤ B * 100 := Nat.mul_le_mul_left B hab
  omega

/-- Helper: the two shares exhaust a positive budget only when the
percentages sum to exactly 100. -/
theorem nat_cache_eq (B a b : Nat) (hab : a + b ≤ 100) (hB : 0 < B)
    (he : B * a / 100 + B * b / 100 = B) : a + b = 100 := by
  rcases Nat.lt_or_ge (a + b) 100 with h | h
  · exfalso
    have e : B * a + B * b ≤ B * 99 := by
      have h99 : a + b ≤ 99 := by omega
      calc B * a + B * b = B * (a + b) := (Nat.mul_add B a b).symm
      _ ≤ B * 99 := Nat.mul_le_mul_left B h99
    omega
  · omega

/-- Helper: floor division of a cast natural by 100. -/
theorem fdiv_natCast_100 (k : Nat) : Int.fdiv ((k : Int)) 100 = ((k / 100 : Nat) : Int) := by
  cases k <;> rfl

/-- C6 counterexample: the claim quantifies over all percentages a, b in
[0,100], but at B = 100, a = b = 100 the two shares sum to 200 > B, and at
B = 0, a = b = 0 the shares sum to B although a + b is not 100, refuting
both the bound and the equality condition as stated. -/
theorem C6_counterexample :
    ¬(cachePortion 100 100 + cachePortion 100 100 ≤ (100 : Int)) ∧
    (cachePortion 0 0 + cachePortion 0 0 = (0 : Int) ∧ ((0 : Int) + 0 ≠ 100)) := by decide

/-- C6 (amended): on a completing SetEthConfig run, a recomputed
DatabaseCache equals the cache expression over the budget and the database
percentage, and a recomputed TrieCache the one over the gc percentage; the
cache expression is the floor of total * percent / 100 for non-negative
inputs; and for non-negative percentages summing to at most 100 the two
shares never exceed a non-negative budget, with equality, on a positive
budget, only when the percentages sum to exactly 100. -/
theorem C6_cache_partition :
    (∀ c : EthCtx, ∀ cfg cfg2 : VntConfig, SetEthConfig c cfg = some cfg2 →
      ((c.cacheSet || c.cacheDatabaseSet) = true →
        cfg2.DatabaseCache = cachePortion (globalCache c) (globalCacheDatabase c)) ∧
      ((c.cacheSet || c.cacheGCSet) = true →
        cfg2.TrieCache = cachePortion (globalCache c) (globalCacheGC c))) ∧
    (∀ B p : Int, 0 ≤ B → 0 ≤ p → cachePortion B p = Int.fdiv (B * p) 100) ∧
    (∀ B a b : Int, 0 ≤ B → 0 ≤ a → 0 ≤ b → a + b ≤ 100 →
      cachePortion B a + cachePortion B b ≤ B ∧
      (0 < B → cachePortion B a + cachePortion B b = B → a + b = 100)) := by
  refine ⟨?_, ?_, ?_⟩
  · intro c cfg cfg2 h
    simp only [SetEthConfig] at h
    split at h
    · exact absurd h (by simp)
    · split at h
      · exact absurd h (by simp)
      · obtain rfl : _ = cfg2 := Option.some.inj h
        constructor <;> intro hset <;> simp [hset]
  · intro B p hB hp
    obtain ⟨m, rfl⟩ := Int.eq_ofNat_of_zero_le hB
    obtain ⟨q, rfl⟩ := Int.eq_ofNat_of_zero_le hp
    have hmul : ((m : Int)) * ((q : Int)) = (((m * q : Nat)) : Int) := by push_cast; ring
    rw [hmul, fdiv_natCast_100]
    rfl
  · intro B a b hB ha hb hab
    obtain ⟨m, rfl⟩ := Int.eq_ofNat_of_zero_le hB
    obtain ⟨p, rfl⟩ := Int.eq_ofNat_of_zero_le ha
    obtain ⟨q, rfl⟩ := Int.eq_ofNat_of_zero_le hb
    have hpq : p + q ≤ 100 := by exact_mod_cast hab
    have e1 : cachePortion ((m : Int)) ((p : Int)) = ((m * p / 100 : Nat) : Int) := rfl
    have e2 : cachePortion ((m : Int)) ((q : Int)) = ((m * q / 100 : Nat) : Int) := rfl
    constructor
    · rw [e1, e2]
      exact_mod_cast nat_cache_le m p q hpq
    · intro hBpos hsum
      rw [e1, e2] at hsum
      exact_mod_cast nat_cache_eq m p q hpq (by exact_mod_cast hBpos) (by exact_mod_cast hsum)

/-- C6 witness: the default budget 1024 with the default percentages 75 and
25 stays within the budget. -/
theorem C6_cache_partition_witness :
    cachePortion 1024 75 + cachePortion 1024 25 ≤ (1024 : Int) :=
  ((C6_cache_partition).2.2 1024 75 25 (by decide) (by decide) (by decide) (by decide)).1

end GoVnt

namespace GoVnt

/-! ## Claim about MakePasswordList -/

/-- Helper: every list is its dropped prefix (all of whose elements satisfy
the predicate) followed by its dropWhile remainder. -/
theorem dropWhile_decomp {α : Type} (p : α → Bool) (l : List α) :
    ∃ t : List α, l = t ++ l.dropWhile p ∧ ∀ a ∈ t, p a = true := by
  induction l with
  | nil => exact ⟨[], rfl, by simp⟩
  | cons a l ih =>
    by_cases h : p a = true
    · obtain ⟨t, ht, hall⟩ := ih
      refine ⟨a :: t, ?_, ?_⟩
      · rw [List.dropWhile_cons, if_pos h, List.cons_append]
        exact congrArg (List.cons a) ht
      · intro b hb
        rcases List.mem_cons.mp hb with hb | hb
        · exact hb ▸ h
        · exact hall b hb
    · refine ⟨[], ?_, by simp⟩
      rw [List.nil_append, List.dropWhile_cons, if_neg h]

/-- Helper: the head of a dropWhile remainder does not satisfy the
predicate. -/
theorem head_dropWhile_false {α : Type} (p : α → Bool) :
    ∀ l : List α, ∀ a : α, (l.dropWhile p).head? = some a → p a = false
  | [], a, h => by simp at h
  | b :: l, a, h => by
    rw [List.dropWhile_cons] at h
    by_cases hb : p b = true
    · rw [if_pos hb] at h
      exact head_dropWhile_false p l a h
    · rw [if_neg hb] at h
      obtain rfl : b = a := by simpa using h
      simpa using hb

/-- Helper: strings_TrimRight with cutset carriage return removes exactly a
trailing run of carriage returns and leaves no trailing carriage return. -/
theorem trimRight_cr_spec (s : String) :
    ∃ k : Nat,
      s.data = (strings_TrimRight s "\r").data ++ List.replicate k '\r' ∧
      (strings_TrimRight s "\r").data.getLast? ≠ some '\r' := by
  have hp : ∀ ch : Char, ((("\r" : String).data.contains ch) = true) ↔ ch = '\r' := by
    intro ch
    simp
  obtain ⟨t, ht, hall⟩ :=
    dropWhile_decomp (fun ch => (("\r" : String).data.contains ch)) s.data.reverse
  have hdata : (strings_TrimRight s "\r").data =
      (s.data.reverse.dropWhile (fun ch => (("\r" : String).data.contains ch))).reverse := rfl
  refine ⟨t.length, ?_, ?_⟩
  · have h2 := congrArg List.reverse ht
    rw [List.reverse_reverse, List.reverse_append] at h2
    have hrep : t.reverse = List.replicate t.reverse.length '\r' :=
      List.eq_replicate_of_mem (fun b hb => (hp b).mp (hall b (List.mem_reverse.mp hb)))
    rw [hdata, ← List.length_reverse t, ← hrep]
    exact h2
  · rw [hdata, List.getLast?_reverse]
    cases hh : (s.data.reverse.dropWhile (fun ch => (("\r" : String).data.contains ch))).head? with
    | none => simp
    | some a =>
      have hfa := head_dropWhile_false _ _ _ hh
      intro hcontra
      obtain rfl : a = '\r' := Option.some.inj hcontra
      have hc : (("\r" : String).data.contains '\r') = true := (hp '\r').mpr rfl
      simp only [hc] at hfa
      exact Bool.noConfusion hfa

/-- C9: an empty password-file path yields no passwords; a non-empty path
yields one entry per newline-separated line of the file content, where each
entry is its line with the trailing run of carriage returns removed (so no
entry ends in a carriage return). -/
theorem C9_password_list (path text : String) (h : path ≠ "") :
    MakePasswordList "" text = [] ∧
    (MakePasswordList path text).length = (text.splitOn "\n").length ∧
    ∀ i (hi : i < (MakePasswordList path text).length)
      (hj : i < (text.splitOn "\n").length),
      ∃ k : Nat,
        ((text.splitOn "\n").get ⟨i, hj⟩).data =
          ((MakePasswordList path text).get ⟨i, hi⟩).data ++ List.replicate k '\r' ∧
        ((MakePasswordList path text).get ⟨i, hi⟩).data.getLast? ≠ some '\r' := by
  refine ⟨by simp [MakePasswordList], ?_, ?_⟩
  · simp [MakePasswordList, h]
  · intro i hi hj
    have hmap : MakePasswordList path text =
        (text.splitOn "\n").map (fun l => strings_TrimRight l "\r") := by
      simp [MakePasswordList, h]
    have hget : (MakePasswordList path text).get ⟨i, hi⟩ =
        strings_TrimRight ((text.splitOn "\n").get ⟨i, hj⟩) "\r" := by
      rw [List.get_of_eq hmap]
      simp
    rw [hget]
    exact trimRight_cr_spec _

/-- C9 witness: a two-line file with a CRLF line ending. -/
theorem C9_password_list_witness :
    (MakePasswordList "pw.txt" "hunter2\r\nswordfish").length =
      ("hunter2\r\nswordfish".splitOn "\n").length :=
  (C9_password_list "pw.txt" "hunter2\r\nswordfish" (by decide)).2.1

end GoVnt
